import Mathlib

set_option linter.unusedVariables false
set_option maxRecDepth 8192

/-!
Shallow embedding of the search-adapter layer of this repository:
the `ddgs` HTTP client (`http_client2.py`), the engine adapters
(`duckduckgo.py`, `bing_news.py`, `annasarchive.py`) and the Tavily tool
adapter (`tavily_search.py`, `_utilities.py`).  Python strings are Lean
`String`/`List Char`; machine integers are `Int`/`Nat`; raising an
exception is an explicit error value; the ambient clock is an explicit
`Instant` argument; the patched global method slot is explicit state.
-/

/-! ## Generic string helpers (model of Python `str` operations) -/

/-- Boolean: `pat` is a prefix of `s` (character lists). -/
def isPrefixOfL : List Char → List Char → Bool
  | [], _ => true
  | _ :: _, [] => false
  | a :: as, b :: bs => a = b && isPrefixOfL as bs

/-- Boolean: `pat` occurs as a contiguous substring of `s`
(model of Python `pat in s`). -/
def containsSub (pat : List Char) : List Char → Bool
  | [] => isPrefixOfL pat []
  | c :: rest => isPrefixOfL pat (c :: rest) || containsSub pat rest

/-- Model of Python `pat in s` on `String`s. -/
def strContains (s pat : String) : Bool := containsSub pat.data s.data

/-- Split a character list on a separator character, keeping empty parts:
model of Python `str.split(sep)` for a one-character separator. -/
def splitOnChar (sep : Char) : List Char → List (List Char)
  | [] => [[]]
  | c :: rest =>
    if c = sep then [] :: splitOnChar sep rest
    else
      match splitOnChar sep rest with
      | [] => [[c]]
      | p :: ps => (c :: p) :: ps

/-- Characters of `s` strictly before the first occurrence of `pat`
(the whole of `s` when `pat` does not occur): model of Python
`s.split(pat)[0]` for a non-empty `pat`. -/
def takeBeforeSub (pat : List Char) : List Char → List Char
  | [] => []
  | c :: rest =>
    if isPrefixOfL pat (c :: rest) then []
    else c :: takeBeforeSub pat rest


/-! ## Unicode character classes of CPython `re` (version 3.11)

The tables below are the exact character sets the program's regexes use:
`word_ranges` is the set matched by `\w` (equally the word set of `\b`),
`digit_ranges` the set matched by `\d`, and `ci_pre` maps each character
of the `DATE_RE` unit words to the full set of characters that match it
under `re.IGNORECASE` (including the casefold fixes, e.g. the long s for
`s`).  Each entry was obtained by testing every codepoint against the
CPython 3.11 regex engine.  Every `digit_ranges` run is ten codepoints
whose decimal values are 0 to 9 in order, as `int()` reads them. -/

/-- Codepoint intervals (inclusive) of the characters `\w` matches. -/
def word_ranges : List (Nat × Nat) := [
  (48, 57), (65, 90), (95, 95), (97, 122), (170, 170), (178, 179), (181, 181), (185,
  186), (188, 190), (192, 214), (216, 246), (248, 705), (710, 721), (736, 740), (748,
  748), (750, 750), (880, 884), (886, 887), (890, 893), (895, 895), (902, 902), (904,
  906), (908, 908), (910, 929), (931, 1013), (1015, 1153), (1162, 1327), (1329, 1366),
  (1369, 1369), (1376, 1416), (1488, 1514), (1519, 1522), (1568, 1610), (1632, 1641),
  (1646, 1647), (1649, 1747), (1749, 1749), (1765, 1766), (1774, 1788), (1791, 1791),
  (1808, 1808), (1810, 1839), (1869, 1957), (1969, 1969), (1984, 2026), (2036, 2037),
  (2042, 2042), (2048, 2069), (2074, 2074), (2084, 2084), (2088, 2088), (2112, 2136),
  (2144, 2154), (2160, 2183), (2185, 2190), (2208, 2249), (2308, 2361), (2365, 2365),
  (2384, 2384), (2392, 2401), (2406, 2415), (2417, 2432), (2437, 2444), (2447, 2448),
  (2451, 2472), (2474, 2480), (2482, 2482), (2486, 2489), (2493, 2493), (2510, 2510),
  (2524, 2525), (2527, 2529), (2534, 2545), (2548, 2553), (2556, 2556), (2565, 2570),
  (2575, 2576), (2579, 2600), (2602, 2608), (2610, 2611), (2613, 2614), (2616, 2617),
  (2649, 2652), (2654, 2654), (2662, 2671), (2674, 2676), (2693, 2701), (2703, 2705),
  (2707, 2728), (2730, 2736), (2738, 2739), (2741, 2745), (2749, 2749), (2768, 2768),
  (2784, 2785), (2790, 2799), (2809, 2809), (2821, 2828), (2831, 2832), (2835, 2856),
  (2858, 2864), (2866, 2867), (2869, 2873), (2877, 2877), (2908, 2909), (2911, 2913),
  (2918, 2927), (2929, 2935), (2947, 2947), (2949, 2954), (2958, 2960), (2962, 2965),
  (2969, 2970), (2972, 2972), (2974, 2975), (2979, 2980), (2984, 2986), (2990, 3001),
  (3024, 3024), (3046, 3058), (3077, 3084), (3086, 3088), (3090, 3112), (3114, 3129),
  (3133, 3133), (3160, 3162), (3165, 3165), (3168, 3169), (3174, 3183), (3192, 3198),
  (3200, 3200), (3205, 3212), (3214, 3216), (3218, 3240), (3242, 3251), (3253, 3257),
  (3261, 3261), (3293, 3294), (3296, 3297), (3302, 3311), (3313, 3314), (3332, 3340),
  (3342, 3344), (3346, 3386), (3389, 3389), (3406, 3406), (3412, 3414), (3416, 3425),
  (3430, 3448), (3450, 3455), (3461, 3478), (3482, 3505), (3507, 3515), (3517, 3517),
  (3520, 3526), (3558, 3567), (3585, 3632), (3634, 3635), (3648, 3654), (3664, 3673),
  (3713, 3714), (3716, 3716), (3718, 3722), (3724, 3747), (3749, 3749), (3751, 3760),
  (3762, 3763), (3773, 3773), (3776, 3780), (3782, 3782), (3792, 3801), (3804, 3807),
  (3840, 3840), (3872, 3891), (3904, 3911), (3913, 3948), (3976, 3980), (4096, 4138),
  (4159, 4169), (4176, 4181), (4186, 4189), (4193, 4193), (4197, 4198), (4206, 4208),
  (4213, 4225), (4238, 4238), (4240, 4249), (4256, 4293), (4295, 4295), (4301, 4301),
  (4304, 4346), (4348, 4680), (4682, 4685), (4688, 4694), (4696, 4696), (4698, 4701),
  (4704, 4744), (4746, 4749), (4752, 4784), (4786, 4789), (4792, 4798), (4800, 4800),
  (4802, 4805), (4808, 4822), (4824, 4880), (4882, 4885), (4888, 4954), (4969, 4988),
  (4992, 5007), (5024, 5109), (5112, 5117), (5121, 5740), (5743, 5759), (5761, 5786),
  (5792, 5866), (5870, 5880), (5888, 5905), (5919, 5937), (5952, 5969), (5984, 5996),
  (5998, 6000), (6016, 6067), (6103, 6103), (6108, 6108), (6112, 6121), (6128, 6137),
  (6160, 6169), (6176, 6264), (6272, 6276), (6279, 6312), (6314, 6314), (6320, 6389),
  (6400, 6430), (6470, 6509), (6512, 6516), (6528, 6571), (6576, 6601), (6608, 6618),
  (6656, 6678), (6688, 6740), (6784, 6793), (6800, 6809), (6823, 6823), (6917, 6963),
  (6981, 6988), (6992, 7001), (7043, 7072), (7086, 7141), (7168, 7203), (7232, 7241),
  (7245, 7293), (7296, 7304), (7312, 7354), (7357, 7359), (7401, 7404), (7406, 7411),
  (7413, 7414), (7418, 7418), (7424, 7615), (7680, 7957), (7960, 7965), (7968, 8005),
  (8008, 8013), (8016, 8023), (8025, 8025), (8027, 8027), (8029, 8029), (8031, 8061),
  (8064, 8116), (8118, 8124), (8126, 8126), (8130, 8132), (8134, 8140), (8144, 8147),
  (8150, 8155), (8160, 8172), (8178, 8180), (8182, 8188), (8304, 8305), (8308, 8313),
  (8319, 8329), (8336, 8348), (8450, 8450), (8455, 8455), (8458, 8467), (8469, 8469),
  (8473, 8477), (8484, 8484), (8486, 8486), (8488, 8488), (8490, 8493), (8495, 8505),
  (8508, 8511), (8517, 8521), (8526, 8526), (8528, 8585), (9312, 9371), (9450, 9471),
  (10102, 10131), (11264, 11492), (11499, 11502), (11506, 11507), (11517, 11517),
  (11520, 11557), (11559, 11559), (11565, 11565), (11568, 11623), (11631, 11631),
  (11648, 11670), (11680, 11686), (11688, 11694), (11696, 11702), (11704, 11710),
  (11712, 11718), (11720, 11726), (11728, 11734), (11736, 11742), (11823, 11823),
  (12293, 12295), (12321, 12329), (12337, 12341), (12344, 12348), (12353, 12438),
  (12445, 12447), (12449, 12538), (12540, 12543), (12549, 12591), (12593, 12686),
  (12690, 12693), (12704, 12735), (12784, 12799), (12832, 12841), (12872, 12879),
  (12881, 12895), (12928, 12937), (12977, 12991), (13312, 19903), (19968, 42124),
  (42192, 42237), (42240, 42508), (42512, 42539), (42560, 42606), (42623, 42653),
  (42656, 42735), (42775, 42783), (42786, 42888), (42891, 42954), (42960, 42961),
  (42963, 42963), (42965, 42969), (42994, 43009), (43011, 43013), (43015, 43018),
  (43020, 43042), (43056, 43061), (43072, 43123), (43138, 43187), (43216, 43225),
  (43250, 43255), (43259, 43259), (43261, 43262), (43264, 43301), (43312, 43334),
  (43360, 43388), (43396, 43442), (43471, 43481), (43488, 43492), (43494, 43518),
  (43520, 43560), (43584, 43586), (43588, 43595), (43600, 43609), (43616, 43638),
  (43642, 43642), (43646, 43695), (43697, 43697), (43701, 43702), (43705, 43709),
  (43712, 43712), (43714, 43714), (43739, 43741), (43744, 43754), (43762, 43764),
  (43777, 43782), (43785, 43790), (43793, 43798), (43808, 43814), (43816, 43822),
  (43824, 43866), (43868, 43881), (43888, 44002), (44016, 44025), (44032, 55203),
  (55216, 55238), (55243, 55291), (63744, 64109), (64112, 64217), (64256, 64262),
  (64275, 64279), (64285, 64285), (64287, 64296), (64298, 64310), (64312, 64316),
  (64318, 64318), (64320, 64321), (64323, 64324), (64326, 64433), (64467, 64829),
  (64848, 64911), (64914, 64967), (65008, 65019), (65136, 65140), (65142, 65276),
  (65296, 65305), (65313, 65338), (65345, 65370), (65382, 65470), (65474, 65479),
  (65482, 65487), (65490, 65495), (65498, 65500), (65536, 65547), (65549, 65574),
  (65576, 65594), (65596, 65597), (65599, 65613), (65616, 65629), (65664, 65786),
  (65799, 65843), (65856, 65912), (65930, 65931), (66176, 66204), (66208, 66256),
  (66273, 66299), (66304, 66339), (66349, 66378), (66384, 66421), (66432, 66461),
  (66464, 66499), (66504, 66511), (66513, 66517), (66560, 66717), (66720, 66729),
  (66736, 66771), (66776, 66811), (66816, 66855), (66864, 66915), (66928, 66938),
  (66940, 66954), (66956, 66962), (66964, 66965), (66967, 66977), (66979, 66993),
  (66995, 67001), (67003, 67004), (67072, 67382), (67392, 67413), (67424, 67431),
  (67456, 67461), (67463, 67504), (67506, 67514), (67584, 67589), (67592, 67592),
  (67594, 67637), (67639, 67640), (67644, 67644), (67647, 67669), (67672, 67702),
  (67705, 67742), (67751, 67759), (67808, 67826), (67828, 67829), (67835, 67867),
  (67872, 67897), (67968, 68023), (68028, 68047), (68050, 68096), (68112, 68115),
  (68117, 68119), (68121, 68149), (68160, 68168), (68192, 68222), (68224, 68255),
  (68288, 68295), (68297, 68324), (68331, 68335), (68352, 68405), (68416, 68437),
  (68440, 68466), (68472, 68497), (68521, 68527), (68608, 68680), (68736, 68786),
  (68800, 68850), (68858, 68899), (68912, 68921), (69216, 69246), (69248, 69289),
  (69296, 69297), (69376, 69415), (69424, 69445), (69457, 69460), (69488, 69505),
  (69552, 69579), (69600, 69622), (69635, 69687), (69714, 69743), (69745, 69746),
  (69749, 69749), (69763, 69807), (69840, 69864), (69872, 69881), (69891, 69926),
  (69942, 69951), (69956, 69956), (69959, 69959), (69968, 70002), (70006, 70006),
  (70019, 70066), (70081, 70084), (70096, 70106), (70108, 70108), (70113, 70132),
  (70144, 70161), (70163, 70187), (70272, 70278), (70280, 70280), (70282, 70285),
  (70287, 70301), (70303, 70312), (70320, 70366), (70384, 70393), (70405, 70412),
  (70415, 70416), (70419, 70440), (70442, 70448), (70450, 70451), (70453, 70457),
  (70461, 70461), (70480, 70480), (70493, 70497), (70656, 70708), (70727, 70730),
  (70736, 70745), (70751, 70753), (70784, 70831), (70852, 70853), (70855, 70855),
  (70864, 70873), (71040, 71086), (71128, 71131), (71168, 71215), (71236, 71236),
  (71248, 71257), (71296, 71338), (71352, 71352), (71360, 71369), (71424, 71450),
  (71472, 71483), (71488, 71494), (71680, 71723), (71840, 71922), (71935, 71942),
  (71945, 71945), (71948, 71955), (71957, 71958), (71960, 71983), (71999, 71999),
  (72001, 72001), (72016, 72025), (72096, 72103), (72106, 72144), (72161, 72161),
  (72163, 72163), (72192, 72192), (72203, 72242), (72250, 72250), (72272, 72272),
  (72284, 72329), (72349, 72349), (72368, 72440), (72704, 72712), (72714, 72750),
  (72768, 72768), (72784, 72812), (72818, 72847), (72960, 72966), (72968, 72969),
  (72971, 73008), (73030, 73030), (73040, 73049), (73056, 73061), (73063, 73064),
  (73066, 73097), (73112, 73112), (73120, 73129), (73440, 73458), (73648, 73648),
  (73664, 73684), (73728, 74649), (74752, 74862), (74880, 75075), (77712, 77808),
  (77824, 78894), (82944, 83526), (92160, 92728), (92736, 92766), (92768, 92777),
  (92784, 92862), (92864, 92873), (92880, 92909), (92928, 92975), (92992, 92995),
  (93008, 93017), (93019, 93025), (93027, 93047), (93053, 93071), (93760, 93846),
  (93952, 94026), (94032, 94032), (94099, 94111), (94176, 94177), (94179, 94179),
  (94208, 100343), (100352, 101589), (101632, 101640), (110576, 110579), (110581,
  110587), (110589, 110590), (110592, 110882), (110928, 110930), (110948, 110951),
  (110960, 111355), (113664, 113770), (113776, 113788), (113792, 113800), (113808,
  113817), (119520, 119539), (119648, 119672), (119808, 119892), (119894, 119964),
  (119966, 119967), (119970, 119970), (119973, 119974), (119977, 119980), (119982,
  119993), (119995, 119995), (119997, 120003), (120005, 120069), (120071, 120074),
  (120077, 120084), (120086, 120092), (120094, 120121), (120123, 120126), (120128,
  120132), (120134, 120134), (120138, 120144), (120146, 120485), (120488, 120512),
  (120514, 120538), (120540, 120570), (120572, 120596), (120598, 120628), (120630,
  120654), (120656, 120686), (120688, 120712), (120714, 120744), (120746, 120770),
  (120772, 120779), (120782, 120831), (122624, 122654), (123136, 123180), (123191,
  123197), (123200, 123209), (123214, 123214), (123536, 123565), (123584, 123627),
  (123632, 123641), (124896, 124902), (124904, 124907), (124909, 124910), (124912,
  124926), (124928, 125124), (125127, 125135), (125184, 125251), (125259, 125259),
  (125264, 125273), (126065, 126123), (126125, 126127), (126129, 126132), (126209,
  126253), (126255, 126269), (126464, 126467), (126469, 126495), (126497, 126498),
  (126500, 126500), (126503, 126503), (126505, 126514), (126516, 126519), (126521,
  126521), (126523, 126523), (126530, 126530), (126535, 126535), (126537, 126537),
  (126539, 126539), (126541, 126543), (126545, 126546), (126548, 126548), (126551,
  126551), (126553, 126553), (126555, 126555), (126557, 126557), (126559, 126559),
  (126561, 126562), (126564, 126564), (126567, 126570), (126572, 126578), (126580,
  126583), (126585, 126588), (126590, 126590), (126592, 126601), (126603, 126619),
  (126625, 126627), (126629, 126633), (126635, 126651), (127232, 127244), (130032,
  130041), (131072, 173791), (173824, 177976), (177984, 178205), (178208, 183969),
  (183984, 191456), (194560, 195101), (196608, 201546)]

/-- Codepoint intervals (inclusive) of the characters `\d` matches. -/
def digit_ranges : List (Nat × Nat) := [
  (48, 57), (1632, 1641), (1776, 1785), (1984, 1993), (2406, 2415), (2534, 2543),
  (2662, 2671), (2790, 2799), (2918, 2927), (3046, 3055), (3174, 3183), (3302, 3311),
  (3430, 3439), (3558, 3567), (3664, 3673), (3792, 3801), (3872, 3881), (4160, 4169),
  (4240, 4249), (6112, 6121), (6160, 6169), (6470, 6479), (6608, 6617), (6784, 6793),
  (6800, 6809), (6992, 7001), (7088, 7097), (7232, 7241), (7248, 7257), (42528, 42537),
  (43216, 43225), (43264, 43273), (43472, 43481), (43504, 43513), (43600, 43609),
  (44016, 44025), (65296, 65305), (66720, 66729), (68912, 68921), (69734, 69743),
  (69872, 69881), (69942, 69951), (70096, 70105), (70384, 70393), (70736, 70745),
  (70864, 70873), (71248, 71257), (71360, 71369), (71472, 71481), (71904, 71913),
  (72016, 72025), (72784, 72793), (73040, 73049), (73120, 73129), (92768, 92777),
  (92864, 92873), (93008, 93017), (120782, 120791), (120792, 120801), (120802, 120811),
  (120812, 120821), (120822, 120831), (123200, 123209), (123632, 123641), (125264,
  125273), (130032, 130041)]

/-- For each character of a `DATE_RE` unit word, the characters matching
it under `re.IGNORECASE`. -/
def ci_pre : List (Char × List Char) := [
  ('.', ['.']),
  ('a', ['A', 'a']),
  ('d', ['D', 'd']),
  ('e', ['E', 'e']),
  ('g', ['G', 'g']),
  ('i', ['I', 'i', 'İ', 'ı']),
  ('j', ['J', 'j']),
  ('n', ['N', 'n']),
  ('o', ['O', 'o']),
  ('r', ['R', 'r']),
  ('s', ['S', 's', 'ſ']),
  ('t', ['T', 't']),
  ('u', ['U', 'u']),
  ('y', ['Y', 'y']),
  ('í', ['Í', 'í']),
  ('д', ['Д', 'д', 'ᲁ']),
  ('е', ['Е', 'е']),
  ('н', ['Н', 'н']),
  ('ь', ['Ь', 'ь'])]

/-- Word character for the regex `\b` boundaries and `\w`: membership in
`word_ranges`. -/
def isWordChar (c : Char) : Bool :=
  word_ranges.any fun p => p.1 ≤ c.toNat && c.toNat ≤ p.2

/-- The character set of `\d`: membership in `digit_ranges`. -/
def isDigitU (c : Char) : Bool :=
  digit_ranges.any fun p => p.1 ≤ c.toNat && c.toNat ≤ p.2

/-- Decimal value of a `\d` character, as `int()` reads it: its offset in
its `digit_ranges` run. -/
def digitValU (c : Char) : Nat :=
  match digit_ranges.find? (fun p => p.1 ≤ c.toNat && c.toNat ≤ p.2) with
  | some p => c.toNat - p.1
  | none => 0

/-- `re.IGNORECASE` match of one pattern character `w` (a character of a
`DATE_RE` unit word) against an input character, via the engine-derived
`ci_pre` table. -/
def ci_matches (w c : Char) : Bool :=
  match ci_pre.find? (fun p => p.1 = w) with
  | some p => p.2.contains c
  | none => w = c

/-- Numeric value of a list of `\d` characters (model of Python
`int(...)` on a regex-matched digit group, Unicode digits included). -/
def natOfDigits (ds : List Char) : Nat :=
  ds.foldl (fun acc c => acc * 10 + digitValU c) 0

/-! ## `ddgs.http_client2` -/

namespace HttpClient2

/-- `Response` from `http_client2.py`: slots `status_code`, `content`, `text`
(`content : bytes` modelled as a `String`). -/
structure Response where
  status_code : Nat
  content : String
  text : String
deriving DecidableEq

/-- A Python exception as `HttpClient2.request` observes it: its `str` form
(used for the `"timed out" in f"{ex}"` test), its `repr` form (used in the
wrapped messages) and its type name. -/
structure PyExc where
  strForm : String
  reprForm : String
  typeName : String
deriving DecidableEq

/-- What `HttpClient2.request` does with the single underlying attempt:
return the response, raise `TimeoutException`, or raise `DDGSException`. -/
inductive RequestOutcome where
  | ok (r : Response)
  | timeout_exception (msg : String)
  | ddgs_exception (msg : String)
deriving DecidableEq

/-- `HttpClient2.request` as a function of the outcome of the one underlying
`self.client.request(...)` attempt (`Except.ok` = the attempt returned,
`Except.error` = the attempt raised).  Mirrors the `try/except` of
`http_client2.py` lines 54-65. -/
def request (attempt : Except PyExc Response) : RequestOutcome :=
  match attempt with
  | .ok resp => .ok resp
  | .error ex =>
    if strContains ex.strForm "timed out" then
      .timeout_exception ("Request timed out: " ++ ex.reprForm)
    else
      .ddgs_exception (ex.typeName ++ ": " ++ ex.reprForm)

/-- `request` run against a stream of available attempt outcomes
(`attempts n` = outcome the transport would give to the `n`-th attempt).
The body performs exactly one attempt, the `0`-th: no retry loop exists. -/
def request_of_attempts (attempts : Nat → Except PyExc Response) : RequestOutcome :=
  request (attempts 0)

/-- Result of running `request` under the `Patch` context manager, with the
global `HTTP2Connection._send_connection_init` slot (of some type `α`) made
explicit: the slot's value while the body runs, the body's outcome, and the
slot's value after `with` has finished. -/
structure PatchRun (α : Type) where
  during : α
  result : RequestOutcome
  after : α
deriving DecidableEq

/-- `with Patch(): try ... except ...` from `HttpClient2.request`:
`__enter__` saves the current global `_send_connection_init` and installs
the patched one; the body runs (returning or raising, both captured in
`RequestOutcome`); `__exit__` restores the saved method on every path,
per the `with`-statement's finally semantics. -/
def request_with_patch {α : Type} (patched : α) (slot : α)
    (attempt : Except PyExc Response) : PatchRun α :=
  let saved := slot
  let installed := patched
  let res := request attempt
  { during := installed, result := res, after := saved }

end HttpClient2

/-! ## `ddgs.engines.duckduckgo` -/

/-- Lookup in a payload built as an ordered association list (all keys the
builders insert are distinct, so this agrees with the Python `dict`). -/
def plookup (k : String) : List (String × String) → Option String
  | [] => none
  | (k1, v) :: rest => if k1 = k then some v else plookup k rest

namespace Duckduckgo

/-- `Duckduckgo.build_payload` (duckduckgo.py lines 33-42).  `timelimit` is
`str | None`; Python truthiness `if timelimit:` is `some t` with `t ≠ ""`. -/
def build_payload (query region safesearch : String) (timelimit : Option String)
    (page : Int) : List (String × String) :=
  let payload := [("q", query), ("b", ""), ("l", region)]
  let payload := if page > 1 then payload ++ [("s", toString (10 + (page - 2) * 15))] else payload
  match timelimit with
  | some t => if t ≠ "" then payload ++ [("df", t)] else payload
  | none => payload

end Duckduckgo

/-! ## `ddgs.engines.annasarchive` -/

namespace AnnasArchive

/-- Modelled from the spec: `ddgs/results.py` is not under `src/`; the spec
describes a `BooksResult` as a mapping from field name to extracted string.
The field names are those of `AnnasArchive.elements_xpath`. -/
structure BooksResult where
  title : String
  author : String
  publisher : String
  info : String
  url : String
  thumbnail : String
deriving DecidableEq

/-- Class attribute `search_url` of `AnnasArchive`. -/
def search_url : String := "https://annas-archive.li/search"

/-- `self.search_url.split("/search")[0]` from `post_extract_results`. -/
def base_url : String := ⟨takeBeforeSub "/search".data search_url.data⟩

/-- `AnnasArchive.build_payload` (annasarchive.py lines 32-36). -/
def build_payload (query region safesearch : String) (timelimit : Option String)
    (page : Int) : List (String × String) :=
  [("q", query), ("page", toString page)]

/-- `AnnasArchive.pre_process_html` (annasarchive.py lines 38-40). -/
def pre_process_html (html_text : String) : String :=
  (html_text.replace "<!--" "").replace "-->" ""

/-- `AnnasArchive.post_extract_results` (annasarchive.py lines 42-47); the
in-place `result.url = f"{base_url}{result.url}"` over the list is a map
producing the record with the rewritten `url`. -/
def post_extract_results (results : List BooksResult) : List BooksResult :=
  results.map fun result => { result with url := base_url ++ result.url }

end AnnasArchive

/-! ## `ddgs.engines.bing_news` : calendar model

`datetime` values are modelled with the proleptic Gregorian calendar.
An `Instant` is an aware UTC datetime: a day number (days since the civil
epoch 1970-01-01) and a second-of-day.  The naive result of `strptime` is
rendered through `.astimezone(timezone.utc)`, modelled with the process
local timezone equal to UTC. -/

/-- Gregorian leap-year test (as `datetime` implements it). -/
def is_leap (y : Nat) : Bool := y % 4 = 0 && (y % 100 != 0 || y % 400 = 0)

/-- Days in month `m` of year `y` (as `datetime` validates `day`). -/
def days_in_month (y m : Nat) : Nat :=
  if m = 2 then (if is_leap y then 29 else 28)
  else if m = 4 || m = 6 || m = 9 || m = 11 then 30
  else 31

/-- Civil date from a count of days since 1970-01-01 (proleptic Gregorian);
the arithmetic `datetime.timedelta` subtraction relies on. -/
def civil_from_days (z0 : Int) : Int × Nat × Nat :=
  let z := z0 + 719468
  let era : Int := Int.fdiv z 146097
  let doe : Nat := (z - era * 146097).toNat
  let yoe : Nat := (doe - doe / 1460 + doe / 36524 - doe / 146096) / 365
  let doy : Nat := doe - (365 * yoe + yoe / 4 - yoe / 100)
  let mp : Nat := (5 * doy + 2) / 153
  let d : Nat := doy - (153 * mp + 2) / 5 + 1
  let m : Nat := if mp < 10 then mp + 3 else mp - 9
  let y : Int := (yoe : Int) + era * 400 + (if m ≤ 2 then 1 else 0)
  (y, m, d)

/-- An aware UTC datetime, to second precision (the code zeroes
microseconds before rendering). -/
structure Instant where
  days : Int
  secs : Nat
deriving DecidableEq

/-- Decimal rendering padded to width 2 (as `isoformat` renders fields). -/
def pad2 (n : Nat) : String := if n < 10 then "0" ++ toString n else toString n

/-- Decimal rendering padded to width 4 (as `isoformat` renders the year). -/
def pad4 (n : Nat) : String :=
  if n < 10 then "000" ++ toString n
  else if n < 100 then "00" ++ toString n
  else if n < 1000 then "0" ++ toString n
  else toString n

/-- `datetime(y, m, d, tzinfo=utc).isoformat()`. -/
def iso_of_date (y m d : Nat) : String :=
  pad4 y ++ "-" ++ pad2 m ++ "-" ++ pad2 d ++ "T00:00:00+00:00"

/-- `dt.isoformat()` of an aware UTC `Instant` with zero microseconds. -/
def iso_of_instant (t : Instant) : String :=
  let ymd := civil_from_days t.days
  pad4 ymd.1.toNat ++ "-" ++ pad2 ymd.2.1 ++ "-" ++ pad2 ymd.2.2 ++ "T" ++
    pad2 (t.secs / 3600) ++ ":" ++ pad2 (t.secs % 3600 / 60) ++ ":" ++
    pad2 (t.secs % 60) ++ "+00:00"

namespace BingNews

/-- The `%d` field of CPython strptime: the regex alternatives
`3[0-1]|[1-2]\d|0[1-9]|[1-9]| [1-9]`, where the bracketed classes are
ASCII and `\d` is the Unicode digit set; the value range is finished by
the `datetime` day validation in `strptime_dmy`. -/
def day_field_ok (s : List Char) : Bool :=
  match s with
  | ['3', c] => c = '0' || c = '1'
  | [c1, c2] =>
    if c1 = '1' || c1 = '2' then isDigitU c2
    else if c1 = '0' || c1 = ' ' then '1' ≤ c2 && c2 ≤ '9'
    else false
  | [c] => '1' ≤ c && c ≤ '9'
  | _ => false

/-- The `%m` field of CPython strptime: the regex alternatives
`1[0-2]|0[1-9]|[1-9]` (all ASCII). -/
def month_field_ok : List Char → Bool
  | ['1', c] => '0' ≤ c && c ≤ '2'
  | ['0', c] => '1' ≤ c && c ≤ '9'
  | [c] => '1' ≤ c && c ≤ '9'
  | _ => false

/-- `datetime.strptime(s, fmt)` for the three formats of `extract_date`,
parameterised by the separator character and whether the day field comes
first.  CPython accepts for `%d` what `day_field_ok` says, for `%m` what
`month_field_ok` says, exactly four `\d` digits for `%Y`, requires the
whole string to match, and `datetime` then validates the day against the
month and the year against `MINYEAR = 1` (so `30.02.2021` raises
`ValueError` and the next format is tried). -/
def strptime_dmy (s : String) (sep : Char) (dayFirst : Bool) : Option (Nat × Nat × Nat) :=
  match splitOnChar sep s.data with
  | [a, b, c] =>
    let dpart := if dayFirst then a else b
    let mpart := if dayFirst then b else a
    if day_field_ok dpart && month_field_ok mpart &&
       c.length = 4 && c.all isDigitU then
      let d := natOfDigits (dpart.dropWhile (fun x => x = ' '))
      let m := natOfDigits mpart
      let y := natOfDigits c
      if 1 ≤ y && 1 ≤ m && m ≤ 12 && 1 ≤ d && d ≤ days_in_month y m then
        some (y, m, d)
      else none
    else none
  | _ => none

/-- `re.IGNORECASE` prefix test: each pattern character (left) matched
against the corresponding input character via `ci_matches`. -/
def prefixCI : List Char → List Char → Bool
  | [], _ => true
  | _ :: _, [] => false
  | a :: as, b :: bs => ci_matches a b && prefixCI as bs

/-- The unit-word alternatives of `DATE_RE`:
`(days|tagen|jours|giorni|dias|días|дн\.|день)`. -/
def unit_words : List (List Char) :=
  ["days", "tagen", "jours", "giorni", "dias", "días", "дн.", "день"].map String.data

/-- `\b` at the position right after a matched unit word: exactly one of
(last character of the word, following character) is a word character. -/
def boundary_after (lastIsWord : Bool) : List Char → Bool
  | [] => lastIsWord
  | c :: _ => lastIsWord != isWordChar c

/-- A unit word matches at the head of `rest` and the regex's final `\b`
holds after it. -/
def unit_at (rest : List Char) : Bool :=
  unit_words.any fun w =>
    prefixCI w rest && boundary_after (isWordChar (w.getLastD ' ')) (rest.drop w.length)

/-- Can the tail of `DATE_RE` (`\s*(unit)?\b`) match starting right after
the maximal digit run, where `after` is what follows the digits?  If the
next character is absent or not a word character, the optional group can be
empty with the `\b` placed right after the digits (`\s*` backtracks to
empty; a space is not a word character).  Otherwise the next character is a
letter, `\s*` must be empty, and a unit word must match immediately. -/
def rel_tail_ok (after : List Char) : Bool :=
  match after with
  | [] => true
  | c :: _ => if !isWordChar c then true else unit_at after

/-- `DATE_RE.search` scanning: at each position with a word boundary before
a digit, the maximal digit run is the candidate `(\d+)`; `re` cannot
backtrack the run shorter (the following character would be a digit, which
neither `\s*`, a unit word, nor `\b` accepts), so on failure the scan
resumes at the next position.  `prev` is whether the previous character is
a word character (no boundary inside a digit run). -/
def findRel : Bool → List Char → Option Nat
  | _, [] => none
  | prev, c :: rest =>
    if !prev && isDigitU c then
      let run := c :: rest.takeWhile isDigitU
      let after := rest.dropWhile isDigitU
      if rel_tail_ok after then some (natOfDigits run)
      else findRel true rest
    else findRel (isWordChar c) rest

/-- `DATE_RE.search(s)`, returning `int(match.group(1))` of the first
match, which is all `extract_date` uses. -/
def date_re_search (s : String) : Option Nat := findRel false s.data

/-- `extract_date` (bing_news.py lines 16-33): try the formats `%d.%m.%Y`,
`%m/%d/%Y`, `%d/%m/%Y` in order; then the relative-days regex against the
current UTC time `now`; otherwise return the string unchanged. -/
def extract_date (pub_date_str : String) (now : Instant) : String :=
  match strptime_dmy pub_date_str '.' true with
  | some ymd => iso_of_date ymd.1 ymd.2.1 ymd.2.2
  | none =>
  match strptime_dmy pub_date_str '/' false with
  | some ymd => iso_of_date ymd.1 ymd.2.1 ymd.2.2
  | none =>
  match strptime_dmy pub_date_str '/' true with
  | some ymd => iso_of_date ymd.1 ymd.2.1 ymd.2.2
  | none =>
  match date_re_search pub_date_str with
  | some days_ago => iso_of_instant { days := now.days - days_ago, secs := now.secs }
  | none => pub_date_str

/-- Modelled from the spec: `ddgs/results.py` is not under `src/`; the spec
describes a `NewsResult` as a mapping from field name to extracted string.
The field names are those of `BingNews.elements_xpath`. -/
structure NewsResult where
  date : String
  title : String
  body : String
  url : String
  image : String
  source : String
deriving DecidableEq

/-- `result.image.split('&')[0]`. -/
def image_before_amp (s : String) : String := ⟨s.data.takeWhile (fun c => c != '&')⟩

/-- `BingNews.post_extract_results` (bing_news.py lines 78-83), with the
clock explicit; the in-place field assignments over the list are a map
producing records with the rewritten `date` and `image`. -/
def post_extract_results (results : List NewsResult) (now : Instant) : List NewsResult :=
  results.map fun result =>
    { result with
      date := extract_date result.date now,
      image := if result.image != "" then "https://www.bing.com" ++ image_before_amp result.image else "" }

/-- The `qft` table of `BingNews.build_payload`; a `timelimit` outside the
four keys raises `KeyError`, modelled as `none`. -/
def qft_of : String → Option String
  | "d" => some "interval=\"4\""
  | "w" => some "interval=\"7\""
  | "m" => some "interval=\"9\""
  | "y" => some "interval=\"9\""
  | _ => none

/-- `BingNews.build_payload` (bing_news.py lines 56-76).  The unpacking
`country, lang = region.lower().split("-")` raises `ValueError` unless the
split has exactly two parts, modelled as `none`; `if timelimit:` is falsy
for `None` and for the empty string, and a non-empty timelimit outside the
`qft` table raises `KeyError`, modelled as `none`. -/
def build_payload (query region safesearch : String) (timelimit : Option String)
    (page : Int) : Option (List (String × String)) :=
  match splitOnChar '-' (region.data.map Char.toLower) with
  | [country, lang] =>
    let payload := [("q", query), ("InfiniteScroll", "1"),
      ("first", toString (page * 10 + 1)), ("SFX", toString page),
      ("cc", (⟨country⟩ : String)), ("setlang", (⟨lang⟩ : String))]
    match timelimit with
    | none => some payload
    | some t =>
      if t = "" then some payload
      else
        match qft_of t with
        | some v => some (payload ++ [("qft", v)])
        | none => none
  | _ => none

end BingNews

/-! ## `langchain_tavily` : `TavilySearch._run` and
`TavilySearchAPIWrapper.raw_results` -/

namespace TavilySearch

/-- A Python exception as the `try/except` ladder of `_run` distinguishes
it: `ToolException` versus everything else. -/
inductive PyError where
  | tool_exception (msg : String)
  | value_error (msg : String)
  | other (typeName : String) (msg : String)
deriving DecidableEq

/-- The slice of the Tavily JSON response `_run` inspects: the list under
the `results` key (entries abstracted to strings). -/
structure RawResults where
  results : List String
deriving DecidableEq

/-- How `_run` finishes: return the raw results dict, raise an exception,
or return normally a dict holding the caught exception under the
`error` key (`return {"error": e}`). -/
inductive RunOutcome where
  | ok (r : RawResults)
  | raised (e : PyError)
  | error_dict (e : PyError)
deriving DecidableEq

/-- `TavilySearchAPIWrapper.raw_results` (_utilities.py lines 88-100) as a
function of the HTTP response: a non-200 status raises
`ValueError(f"Error {status}: {message}")`, otherwise the parsed body is
returned. -/
def raw_results (status_code : Nat) (error_message : String) (body : RawResults) :
    Except PyError RawResults :=
  if status_code ≠ 200 then
    .error (.value_error ("Error " ++ toString status_code ++ ": " ++ error_message))
  else
    .ok body

/-- Is an outcome a propagated (raised) exception? -/
def is_raised : RunOutcome → Bool
  | .raised _ => true
  | _ => false

/-- The `ToolException` message `_run` builds for an empty result list
(`suggestions` is the joined suggestion text). -/
def empty_results_message (query suggestions : String) : String :=
  "No search results found for '" ++ query ++ "'. Suggestions: " ++ suggestions ++
    ". Try modifying your search parameters with one of these approaches."

/-- `TavilySearch._run` (tavily_search.py lines 369-421) as a function of
the outcome of the `api_wrapper.raw_results` call: on success with an empty
`results` list it raises `ToolException` (re-raised by the
`except ToolException` arm); on success otherwise it returns the dict; on
any other exception it returns `{"error": e}` normally. -/
def run (api_outcome : Except PyError RawResults) (query suggestions : String) :
    RunOutcome :=
  match api_outcome with
  | .ok raw =>
    if raw.results.isEmpty then
      .raised (.tool_exception (empty_results_message query suggestions))
    else
      .ok raw
  | .error e =>
    match e with
    | .tool_exception m => .raised (.tool_exception m)
    | e => .error_dict e

end TavilySearch

/-! ## Remaining definitions used by theorem statements -/

namespace BingNews

/-- The relative-days branch of `extract_date` is not taken for `s`: one of
the three formats parses, or `DATE_RE` finds no match.  Exactly then is the
output of `extract_date` independent of the clock. -/
def clock_free (s : String) : Bool :=
  (strptime_dmy s '.' true).isSome || (strptime_dmy s '/' false).isSome ||
  (strptime_dmy s '/' true).isSome || (date_re_search s).isNone

/-- Case-insensitive substring occurrence, for stating that an input
contains no day-unit word under any reading. -/
def containsCI (pat : List Char) : List Char → Bool
  | [] => prefixCI pat []
  | c :: rest => prefixCI pat (c :: rest) || containsCI pat rest

end BingNews

/-! ## Theorems -/

/-- C1: `HttpClient2.request` performs the underlying attempt exactly once
(only the outcome of attempt 0 matters: no retry), a returned response is
passed through, and an exception raised by the attempt surfaces as
`TimeoutException` exactly when its string form contains `"timed out"` and
as `DDGSException` exactly otherwise; no exception escapes in any other
form. -/
theorem http_client2_request_error_classification
    (f g : Nat → Except HttpClient2.PyExc HttpClient2.Response)
    (ex : HttpClient2.PyExc) (r : HttpClient2.Response) :
    (f 0 = g 0 → HttpClient2.request_of_attempts f = HttpClient2.request_of_attempts g) ∧
    HttpClient2.request (Except.ok r) = HttpClient2.RequestOutcome.ok r ∧
    ((∃ m, HttpClient2.request (Except.error ex) = HttpClient2.RequestOutcome.timeout_exception m) ↔
      strContains ex.strForm "timed out" = true) ∧
    ((∃ m, HttpClient2.request (Except.error ex) = HttpClient2.RequestOutcome.ddgs_exception m) ↔
      strContains ex.strForm "timed out" = false) ∧
    (∀ r2, HttpClient2.request (Except.error ex) ≠ HttpClient2.RequestOutcome.ok r2) := by
  refine ⟨?_, rfl, ?_, ?_, ?_⟩
  · intro h
    unfold HttpClient2.request_of_attempts
    rw [h]
  all_goals
    by_cases h : strContains ex.strForm "timed out" = true <;>
      simp [HttpClient2.request, h, Bool.not_eq_true] at h ⊢

/-- Witness for C1 at concrete inputs: a timeout-worded exception becomes a
`TimeoutException`, any other exception becomes a `DDGSException`, and two
attempt streams agreeing on attempt 0 give the same outcome. -/
theorem http_client2_request_error_classification_witness :
    (∃ m, HttpClient2.request (Except.error ⟨"The handshake operation timed out", "ConnectTimeout()", "ConnectTimeout"⟩) =
      HttpClient2.RequestOutcome.timeout_exception m) ∧
    (∃ m, HttpClient2.request (Except.error ⟨"connection refused", "ConnectError()", "ConnectError"⟩) =
      HttpClient2.RequestOutcome.ddgs_exception m) ∧
    HttpClient2.request_of_attempts (fun _ => Except.ok ⟨200, "c", "t"⟩) =
      HttpClient2.request_of_attempts (fun n => Except.ok ⟨200, "c", "t"⟩) := by
  refine ⟨?_, ?_, ?_⟩
  · exact (http_client2_request_error_classification (fun _ => Except.ok ⟨200, "c", "t"⟩)
      (fun _ => Except.ok ⟨200, "c", "t"⟩)
      ⟨"The handshake operation timed out", "ConnectTimeout()", "ConnectTimeout"⟩
      ⟨200, "c", "t"⟩).2.2.1.mpr (by decide)
  · exact (http_client2_request_error_classification (fun _ => Except.ok ⟨200, "c", "t"⟩)
      (fun _ => Except.ok ⟨200, "c", "t"⟩)
      ⟨"connection refused", "ConnectError()", "ConnectError"⟩
      ⟨200, "c", "t"⟩).2.2.2.1.mpr (by decide)
  · exact (http_client2_request_error_classification (fun _ => Except.ok ⟨200, "c", "t"⟩)
      (fun n => Except.ok ⟨200, "c", "t"⟩)
      ⟨"x", "x", "x"⟩ ⟨200, "c", "t"⟩).1 rfl

/-- C10: running `request` under `Patch` leaves the global
`HTTP2Connection._send_connection_init` slot as it was before the call,
both when the body returns and when it raises; while the body runs the
patched method is installed, and the outcome is that of `request`. -/
theorem patch_restores_send_connection_init (α : Type) (patched slot : α)
    (r : HttpClient2.Response) (ex : HttpClient2.PyExc) :
    (HttpClient2.request_with_patch patched slot (Except.ok r)).after = slot ∧
    (HttpClient2.request_with_patch patched slot (Except.error ex)).after = slot ∧
    (∀ a, (HttpClient2.request_with_patch patched slot a).after = slot) ∧
    (∀ a, (HttpClient2.request_with_patch patched slot a).during = patched) ∧
    (∀ a, (HttpClient2.request_with_patch patched slot a).result = HttpClient2.request a) :=
  ⟨rfl, rfl, fun _ => rfl, fun _ => rfl, fun _ => rfl⟩

/-- C9: for each of the three engine adapters, `build_payload` does not
depend on the `safesearch` argument: two calls differing only in
`safesearch` return equal payloads. -/
theorem build_payload_ignores_safesearch (query region s1 s2 : String)
    (timelimit : Option String) (page : Int) :
    Duckduckgo.build_payload query region s1 timelimit page =
      Duckduckgo.build_payload query region s2 timelimit page ∧
    BingNews.build_payload query region s1 timelimit page =
      BingNews.build_payload query region s2 timelimit page ∧
    AnnasArchive.build_payload query region s1 timelimit page =
      AnnasArchive.build_payload query region s2 timelimit page :=
  ⟨rfl, rfl, rfl⟩

/-- C5: `AnnasArchive.post_extract_results` keeps length and order, the
`url` of every record becomes the base URL (the `search_url` with the
`/search` suffix removed) concatenated with the original `url`, and every
other field is unchanged. -/
theorem annasarchive_post_extract_url_prefix (results : List AnnasArchive.BooksResult) (i : Nat) :
    (AnnasArchive.post_extract_results results).length = results.length ∧
    AnnasArchive.base_url ++ "/search" = AnnasArchive.search_url ∧
    ((AnnasArchive.post_extract_results results)[i]?).map AnnasArchive.BooksResult.url =
      (results[i]?).map (fun r => AnnasArchive.base_url ++ r.url) ∧
    ((AnnasArchive.post_extract_results results)[i]?).map
        (fun r => (r.title, r.author, r.publisher, r.info, r.thumbnail)) =
      (results[i]?).map (fun r => (r.title, r.author, r.publisher, r.info, r.thumbnail)) := by
  refine ⟨List.length_map _ _, rfl, ?_, ?_⟩ <;>
    · unfold AnnasArchive.post_extract_results
      rw [List.getElem?_map]
      cases results[i]? <;> rfl

/-- C6: `Duckduckgo.build_payload` maps `q` to the query, `l` to the
region, `b` to the empty string; it has an `s` key exactly when
`page > 1`, and then `s` is the decimal string of `10 + (page - 2) * 15`;
it has a `df` key equal to the timelimit exactly when the timelimit is
provided and non-empty. -/
theorem duckduckgo_build_payload_spec (query region safesearch : String)
    (timelimit : Option String) (page : Int) :
    plookup "q" (Duckduckgo.build_payload query region safesearch timelimit page) = some query ∧
    plookup "l" (Duckduckgo.build_payload query region safesearch timelimit page) = some region ∧
    plookup "b" (Duckduckgo.build_payload query region safesearch timelimit page) = some "" ∧
    ((∃ v, plookup "s" (Duckduckgo.build_payload query region safesearch timelimit page) = some v) ↔
      page > 1) ∧
    (page > 1 →
      plookup "s" (Duckduckgo.build_payload query region safesearch timelimit page) =
        some (toString (10 + (page - 2) * 15))) ∧
    ((∃ v, plookup "df" (Duckduckgo.build_payload query region safesearch timelimit page) = some v) ↔
      ∃ t, timelimit = some t ∧ t ≠ "") ∧
    (∀ t, timelimit = some t → t ≠ "" →
      plookup "df" (Duckduckgo.build_payload query region safesearch timelimit page) = some t) := by
  unfold Duckduckgo.build_payload
  by_cases hp : page > 1 <;>
    rcases timelimit with _ | t <;>
    simp [plookup, hp] <;>
    by_cases ht : t = "" <;>
    simp [plookup, ht, hp]

/-- Witness for C6 at `page = 2`, `timelimit = "w"`: the `s` key is
`"10"` and the `df` key is `"w"`. -/
theorem duckduckgo_build_payload_spec_witness :
    plookup "s" (Duckduckgo.build_payload "cats" "us-en" "off" (some "w") 2) = some "10" ∧
    plookup "df" (Duckduckgo.build_payload "cats" "us-en" "off" (some "w") 2) = some "w" := by
  have h := duckduckgo_build_payload_spec "cats" "us-en" "off" (some "w") 2
  exact ⟨by simpa using h.2.2.2.2.1 (by decide), h.2.2.2.2.2.2 "w" rfl (by decide)⟩

/-- C7: under the precondition that lower-casing the region and splitting
on the single `-` yields a country and a language part, and that the
timelimit is absent or one of `d`, `w`, `m`, `y`, `BingNews.build_payload`
reaches no error branch: it returns a payload with `cc` the lower-cased
country, `setlang` the lower-cased language, `first` the decimal string of
`page * 10 + 1`, and a `qft` entry exactly when a timelimit is given. -/
theorem bing_build_payload_total (query region safesearch : String)
    (timelimit : Option String) (page : Int) (country lang : List Char)
    (hsplit : splitOnChar '-' (region.data.map Char.toLower) = [country, lang])
    (ht : timelimit = none ∨ timelimit = some "d" ∨ timelimit = some "w" ∨
      timelimit = some "m" ∨ timelimit = some "y") :
    ∃ p, BingNews.build_payload query region safesearch timelimit page = some p ∧
      plookup "cc" p = some (⟨country⟩ : String) ∧
      plookup "setlang" p = some (⟨lang⟩ : String) ∧
      plookup "first" p = some (toString (page * 10 + 1)) ∧
      plookup "q" p = some query ∧
      ((∃ v, plookup "qft" p = some v) ↔ timelimit ≠ none) := by
  unfold BingNews.build_payload
  rw [hsplit]
  rcases ht with h | h | h | h | h <;> subst h <;>
    exact ⟨_, rfl, by simp [plookup, BingNews.qft_of]⟩

/-- Witness for C7 at region `EN-US`, timelimit `w`, page 3. -/
theorem bing_build_payload_total_witness :
    ∃ p, BingNews.build_payload "cats" "EN-US" "off" (some "w") 3 = some p ∧
      plookup "cc" p = some (⟨"en".data⟩ : String) ∧
      plookup "setlang" p = some (⟨"us".data⟩ : String) ∧
      plookup "first" p = some (toString ((3 : Int) * 10 + 1)) ∧
      plookup "q" p = some "cats" ∧
      ((∃ v, plookup "qft" p = some v) ↔ (some "w" : Option String) ≠ none) :=
  bing_build_payload_total "cats" "EN-US" "off" (some "w") 3 "en".data "us".data
    (by decide) (by simp)

/-- Helper: when `clock_free s` holds, `extract_date` does not read the
clock. -/
theorem extract_date_clock_indep (s : String) (n1 n2 : Instant)
    (h : BingNews.clock_free s = true) :
    BingNews.extract_date s n1 = BingNews.extract_date s n2 := by
  unfold BingNews.clock_free at h
  unfold BingNews.extract_date
  cases h1 : BingNews.strptime_dmy s '.' true with
  | some ymd => rfl
  | none =>
    cases h2 : BingNews.strptime_dmy s '/' false with
    | some ymd => rfl
    | none =>
      cases h3 : BingNews.strptime_dmy s '/' true with
      | some ymd => rfl
      | none =>
        cases h4 : BingNews.date_re_search s with
        | some k => simp [h1, h2, h3, h4] at h
        | none => rfl

/-- Helper: `BingNews.post_extract_results` does not read the clock when
no record date takes the relative-days branch. -/
theorem post_extract_clock_indep_aux (results : List BingNews.NewsResult) (n1 n2 : Instant)
    (h : ∀ r ∈ results, BingNews.clock_free r.date = true) :
    BingNews.post_extract_results results n1 = BingNews.post_extract_results results n2 := by
  unfold BingNews.post_extract_results
  exact List.map_congr_left fun r hr => by
    rw [show BingNews.extract_date r.date n1 = BingNews.extract_date r.date n2 from
      extract_date_clock_indep r.date n1 n2 (h r hr)]

/-- C2 counterexample: two runs of `BingNews.post_extract_results` on the
same fixed record list give different outputs when the runs observe
different current times — the record date `"5 days"` takes the
relative-days branch, which reads the clock. -/
theorem extraction_two_runs_differ_cex :
    BingNews.post_extract_results [⟨"5 days", "", "", "", "", ""⟩] ⟨19954, 0⟩ ≠
      BingNews.post_extract_results [⟨"5 days", "", "", "", "", ""⟩] ⟨19955, 0⟩ := by
  decide

/-- C2 (amended): the extraction hooks are deterministic given the clock
reading: when no record date takes the relative-days branch of
`extract_date`, the output of `BingNews.post_extract_results` (and of
`extract_date` itself) is the same across runs regardless of the current
time. -/
theorem extraction_deterministic_given_clock (results : List BingNews.NewsResult)
    (now1 now2 : Instant) (s : String)
    (h : ∀ r ∈ results, BingNews.clock_free r.date = true)
    (hs : BingNews.clock_free s = true) :
    BingNews.post_extract_results results now1 = BingNews.post_extract_results results now2 ∧
    BingNews.extract_date s now1 = BingNews.extract_date s now2 :=
  ⟨post_extract_clock_indep_aux results now1 now2 h,
    extract_date_clock_indep s now1 now2 hs⟩

/-- Witness for C2 (amended) on a fixture with an absolute date and a
non-date string, across two distinct clock readings. -/
theorem extraction_deterministic_given_clock_witness :
    BingNews.post_extract_results
        [⟨"01.02.2020", "", "", "", "", ""⟩, ⟨"hello", "", "", "", "", ""⟩] ⟨19954, 0⟩ =
      BingNews.post_extract_results
        [⟨"01.02.2020", "", "", "", "", ""⟩, ⟨"hello", "", "", "", "", ""⟩] ⟨20100, 999⟩ ∧
    BingNews.extract_date "13/05/2020" ⟨19954, 0⟩ = BingNews.extract_date "13/05/2020" ⟨20100, 999⟩ :=
  extraction_deterministic_given_clock
    [⟨"01.02.2020", "", "", "", "", ""⟩, ⟨"hello", "", "", "", "", ""⟩]
    ⟨19954, 0⟩ ⟨20100, 999⟩ "13/05/2020" (by decide) (by decide)

/-- C3 counterexample: a `NewsResult` is not immutable once built —
`BingNews.post_extract_results` rewrites the `date` field of an already
produced record (here `"01.02.2020"` becomes its ISO rendering). -/
theorem post_extract_mutates_date_field_cex :
    ((BingNews.post_extract_results [⟨"01.02.2020", "t", "b", "u", "", "s"⟩]
        ⟨19954, 45296⟩).headD ⟨"01.02.2020", "t", "b", "u", "", "s"⟩).date ≠ "01.02.2020" := by
  decide

/-- C3 (amended): the post-extraction hooks do modify the records they are
given — `BingNews.post_extract_results` rewrites `date` and `image`, and
`AnnasArchive.post_extract_results` rewrites `url` — but every other field
of every record is unchanged, and length and order are kept. -/
theorem post_extract_other_fields_unchanged (results : List BingNews.NewsResult)
    (now : Instant) (bresults : List AnnasArchive.BooksResult) (i : Nat) :
    ((BingNews.post_extract_results results now)[i]?).map
        (fun r => (r.title, r.body, r.url, r.source)) =
      (results[i]?).map (fun r => (r.title, r.body, r.url, r.source)) ∧
    ((AnnasArchive.post_extract_results bresults)[i]?).map
        (fun r => (r.title, r.author, r.publisher, r.info, r.thumbnail)) =
      (bresults[i]?).map (fun r => (r.title, r.author, r.publisher, r.info, r.thumbnail)) := by
  refine ⟨?_, ?_⟩
  · unfold BingNews.post_extract_results
    rw [List.getElem?_map]
    cases results[i]? <;> rfl
  · unfold AnnasArchive.post_extract_results
    rw [List.getElem?_map]
    cases bresults[i]? <;> rfl

/-- C4 counterexample: `"42"` contains no relative-days expression — no
day-unit word occurs in it, even case-insensitively — and matches none of
the three date formats, yet `extract_date` does not return it unchanged:
`DATE_RE` makes the unit word optional, so a bare integer takes the
relative-days branch. -/
theorem extract_date_bare_integer_cex :
    BingNews.unit_words.all (fun w => !(BingNews.containsCI w "42".data)) = true ∧
    BingNews.strptime_dmy "42" '.' true = none ∧
    BingNews.strptime_dmy "42" '/' false = none ∧
    BingNews.strptime_dmy "42" '/' true = none ∧
    BingNews.extract_date "42" ⟨19954, 45296⟩ = "2024-07-08T12:34:56+00:00" ∧
    "2024-07-08T12:34:56+00:00" ≠ "42" := by
  decide

/-- C4 (amended): `extract_date` returns the UTC ISO-8601 rendering of the
parsed date when one of `%d.%m.%Y`, `%m/%d/%Y`, `%d/%m/%Y` matches (tried
in that order); otherwise, when `DATE_RE` finds an integer at a word
boundary — the day-unit word is optional, so any standalone integer
qualifies — the ISO-8601 timestamp of the current UTC time minus that many
days; and otherwise the original string unchanged. -/
theorem extract_date_branch_spec (s : String) (now : Instant) :
    (∀ y m d, BingNews.strptime_dmy s '.' true = some (y, m, d) →
      BingNews.extract_date s now = iso_of_date y m d) ∧
    (BingNews.strptime_dmy s '.' true = none →
      ∀ y m d, BingNews.strptime_dmy s '/' false = some (y, m, d) →
        BingNews.extract_date s now = iso_of_date y m d) ∧
    (BingNews.strptime_dmy s '.' true = none →
      BingNews.strptime_dmy s '/' false = none →
      ∀ y m d, BingNews.strptime_dmy s '/' true = some (y, m, d) →
        BingNews.extract_date s now = iso_of_date y m d) ∧
    (BingNews.strptime_dmy s '.' true = none →
      BingNews.strptime_dmy s '/' false = none →
      BingNews.strptime_dmy s '/' true = none →
      ∀ k, BingNews.date_re_search s = some k →
        BingNews.extract_date s now = iso_of_instant ⟨now.days - (k : Int), now.secs⟩) ∧
    (BingNews.strptime_dmy s '.' true = none →
      BingNews.strptime_dmy s '/' false = none →
      BingNews.strptime_dmy s '/' true = none →
      BingNews.date_re_search s = none →
      BingNews.extract_date s now = s) := by
  refine ⟨?_, ?_, ?_, ?_, ?_⟩
  · intro y m d h
    simp [BingNews.extract_date, h]
  · intro h1 y m d h
    simp [BingNews.extract_date, h1, h]
  · intro h1 h2 y m d h
    simp [BingNews.extract_date, h1, h2, h]
  · intro h1 h2 h3 k h
    simp [BingNews.extract_date, h1, h2, h3, h]
  · intro h1 h2 h3 h4
    simp [BingNews.extract_date, h1, h2, h3, h4]

/-- Witness for C4 (amended): each branch at a concrete input. -/
theorem extract_date_branch_spec_witness :
    BingNews.extract_date "01.02.2020" ⟨19954, 0⟩ = "2020-02-01T00:00:00+00:00" ∧
    BingNews.extract_date "5 days" ⟨19954, 0⟩ = "2024-08-14T00:00:00+00:00" ∧
    BingNews.extract_date "today" ⟨19954, 0⟩ = "today" := by
  refine ⟨?_, ?_, ?_⟩
  · have h := (extract_date_branch_spec "01.02.2020" ⟨19954, 0⟩).1 2020 2 1 (by decide)
    rw [h]
    decide
  · have h := (extract_date_branch_spec "5 days" ⟨19954, 0⟩).2.2.2.1
      (by decide) (by decide) (by decide) 5 (by decide)
    rw [h]
    decide
  · exact (extract_date_branch_spec "today" ⟨19954, 0⟩).2.2.2.2
      (by decide) (by decide) (by decide) (by decide)

/-- C8 counterexample: when the Tavily API wrapper call raises a
non-`ToolException` error — here the `ValueError` built from an HTTP 500
status — `TavilySearch._run` does not propagate any exception: it returns
normally, with the exception under the `error` key. -/
theorem tavily_run_returns_error_dict_cex :
    TavilySearch.run (TavilySearch.raw_results 500 "Unknown error" ⟨["r1"]⟩)
        "cats" "try a broader query" =
      TavilySearch.RunOutcome.error_dict
        (TavilySearch.PyError.value_error "Error 500: Unknown error") ∧
    TavilySearch.is_raised
      (TavilySearch.run (TavilySearch.raw_results 500 "Unknown error" ⟨["r1"]⟩)
        "cats" "try a broader query") = false := by
  decide

/-- C8 (amended): `TavilySearch._run` catches every non-`ToolException`
error from the wrapper call (for example the `ValueError` that
`raw_results` raises on a non-200 status) and returns normally with the
exception under the `error` key; only `ToolException` propagates — one
re-raised from the wrapper call, or the one `_run` itself raises when the
result list is empty. -/
theorem tavily_run_error_handling (e : TavilySearch.PyError) (query suggestions : String)
    (status : Nat) (msg : String) (body : TavilySearch.RawResults) :
    ((∀ m, e ≠ TavilySearch.PyError.tool_exception m) →
      TavilySearch.run (Except.error e) query suggestions =
          TavilySearch.RunOutcome.error_dict e ∧
        TavilySearch.is_raised (TavilySearch.run (Except.error e) query suggestions) = false) ∧
    (∀ m, TavilySearch.run (Except.error (TavilySearch.PyError.tool_exception m))
        query suggestions =
      TavilySearch.RunOutcome.raised (TavilySearch.PyError.tool_exception m)) ∧
    (status ≠ 200 → TavilySearch.raw_results status msg body =
      Except.error (TavilySearch.PyError.value_error
        ("Error " ++ toString status ++ ": " ++ msg))) ∧
    TavilySearch.raw_results 200 msg body = Except.ok body ∧
    (body.results = [] → TavilySearch.run (Except.ok body) query suggestions =
      TavilySearch.RunOutcome.raised (TavilySearch.PyError.tool_exception
        (TavilySearch.empty_results_message query suggestions))) ∧
    (body.results ≠ [] → TavilySearch.run (Except.ok body) query suggestions =
      TavilySearch.RunOutcome.ok body) := by
  refine ⟨?_, fun m => rfl, ?_, ?_, ?_, ?_⟩
  · intro h
    cases e with
    | tool_exception m => exact absurd rfl (h m)
    | value_error m => exact ⟨rfl, rfl⟩
    | other t m => exact ⟨rfl, rfl⟩
  · intro h
    simp [TavilySearch.raw_results, h]
  · simp [TavilySearch.raw_results]
  · intro h
    simp [TavilySearch.run, h]
  · intro h
    cases hb : body.results with
    | nil => exact absurd hb h
    | cons x xs => simp [TavilySearch.run, hb]

/-- Witness for C8 (amended) at concrete inputs: a `ValueError` is
returned under the `error` key, and a 500 status raises `ValueError` in
`raw_results`. -/
theorem tavily_run_error_handling_witness :
    TavilySearch.run (Except.error (TavilySearch.PyError.value_error "Error 500: boom"))
        "cats" "sugg" =
      TavilySearch.RunOutcome.error_dict (TavilySearch.PyError.value_error "Error 500: boom") ∧
    TavilySearch.raw_results 500 "boom" ⟨[]⟩ =
      Except.error (TavilySearch.PyError.value_error "Error 500: boom") := by
  have h := tavily_run_error_handling (TavilySearch.PyError.value_error "Error 500: boom")
    "cats" "sugg" 500 "boom" ⟨[]⟩
  refine ⟨(h.1 fun m hm => TavilySearch.PyError.noConfusion hm).1, ?_⟩
  have h2 := h.2.2.1 (by decide)
  rw [h2]
  rfl
